import Mathlib

/-!
Shallow embedding of the code-generation pass-pipeline builder
(`TargetPassConfig` and the register-allocator selector) found in the
repository source, together with theorems settling the specification's
claims about it.

Pass identities (`AnalysisID`, a `const void*` in the source) are modelled
as natural numbers with `0` as the null sentinel.  Fatal errors
(`report_fatal_error`, `llvm_unreachable`, failing `assert`s) are modelled
with `Except String`.
-/

/-- `AnalysisID`: an opaque pass-kind token; `0` is the null sentinel. -/
abbrev AnalysisID := Nat

/-! Distinct, nonzero constants standing for the pass IDs that the source
dispatches on (each is the address of a distinct `char` in the source, so
they are pairwise distinct and non-null). -/

def PostRASchedulerID : AnalysisID := 1

def BranchFolderPassID : AnalysisID := 2

def TailDuplicateID : AnalysisID := 3

def EarlyTailDuplicateID : AnalysisID := 4

def MachineBlockPlacementID : AnalysisID := 5

def CodePlacementOptID : AnalysisID := 6

def StackSlotColoringID : AnalysisID := 7

def DeadMachineInstructionElimID : AnalysisID := 8

def EarlyIfConverterID : AnalysisID := 9

def MachineLICMID : AnalysisID := 10

def MachineCSEID : AnalysisID := 11

def MachineSchedulerID : AnalysisID := 12

def PostRAMachineLICMID : AnalysisID := 13

def MachineSinkingID : AnalysisID := 14

def MachineCopyPropagationID : AnalysisID := 15

def MachineBlockPlacementStatsID : AnalysisID := 16

def PHIEliminationID : AnalysisID := 17

def TwoAddressInstructionPassID : AnalysisID := 18

def ProcessImplicitDefsID : AnalysisID := 19

def LiveVariablesID : AnalysisID := 20

def MachineLoopInfoID : AnalysisID := 21

def LiveIntervalsID : AnalysisID := 22

def StrongPHIEliminationID : AnalysisID := 23

def RegisterCoalescerID : AnalysisID := 24

def VirtRegRewriterID : AnalysisID := 25

/-- ID of the pass created by `createMachineFunctionPrinterPass`. -/
def MachineFunctionPrinterPassID : AnalysisID := 26

/-- ID of the pass created by `createMachineVerifierPass`. -/
def MachineVerifierPassID : AnalysisID := 27

/-- `cl::boolOrDefault`: the tri-state command-line flag type. -/
inductive BoolOrDefault
  | BOU_UNSET
  | BOU_TRUE
  | BOU_FALSE
  deriving DecidableEq

/-- `CodeGenOpt::Level`. -/
inductive CodeGenOptLevel
  | None
  | Less
  | Default
  | Aggressive
  deriving DecidableEq, BEq

/-- The command-line flags (`cl::opt` statics) read by the pipeline
builder, plus `TM->shouldPrintMachineCode()` which `printAndVerify`
consults.  All `Disable*`/`Enable*` booleans default to `false` and the
tri-state flags default to `BOU_UNSET`. -/
structure Flags where
  DisablePostRA : Bool
  DisableBranchFold : Bool
  DisableTailDuplicate : Bool
  DisableEarlyTailDup : Bool
  DisableCodePlace : Bool
  DisableSSC : Bool
  DisableMachineDCE : Bool
  EnableEarlyIfConversion : Bool
  DisableMachineLICM : Bool
  DisableMachineCSE : Bool
  EnableMachineSched : BoolOrDefault
  DisablePostRAMachineLICM : Bool
  DisableMachineSink : Bool
  DisableCopyProp : Bool
  OptimizeRegAlloc : BoolOrDefault
  EnableStrongPHIElim : Bool
  EarlyLiveIntervals : Bool
  DisableBlockPlacement : Bool
  EnableBlockPlacementStats : Bool
  shouldPrintMachineCode : Bool
  VerifyMachineCode : Bool

/-- The default state of every flag (no command-line overrides). -/
def defaultFlags : Flags :=
  { DisablePostRA := false
    DisableBranchFold := false
    DisableTailDuplicate := false
    DisableEarlyTailDup := false
    DisableCodePlace := false
    DisableSSC := false
    DisableMachineDCE := false
    EnableEarlyIfConversion := false
    DisableMachineLICM := false
    DisableMachineCSE := false
    EnableMachineSched := BoolOrDefault.BOU_UNSET
    DisablePostRAMachineLICM := false
    DisableMachineSink := false
    DisableCopyProp := false
    OptimizeRegAlloc := BoolOrDefault.BOU_UNSET
    EnableStrongPHIElim := false
    EarlyLiveIntervals := false
    DisableBlockPlacement := false
    EnableBlockPlacementStats := false
    shouldPrintMachineCode := false
    VerifyMachineCode := false }

/-- `applyDisable`: simple binary disabling — if the flag is set the pass
is suppressed (null), otherwise the given ID passes through. -/
def applyDisable (PassID : AnalysisID) (Override : Bool) : AnalysisID :=
  if Override then 0 else PassID

/-- `applyOverride`: ternary override.  `TargetID` is passed through when
the option is unset; the pass is suppressed when the option is false; when
the option is true, `StandardID` is selected if the target provides no
default, failing fatally if there is none either. -/
def applyOverride (TargetID : AnalysisID) (Override : BoolOrDefault)
    (StandardID : AnalysisID) : Except String AnalysisID :=
  match Override with
  | BoolOrDefault.BOU_UNSET => Except.ok TargetID
  | BoolOrDefault.BOU_TRUE =>
    if TargetID ≠ 0 then Except.ok TargetID
    else if StandardID = 0 then Except.error "Target cannot enable pass"
    else Except.ok StandardID
  | BoolOrDefault.BOU_FALSE => Except.ok 0

/-- `overridePass`: the fixed command-line override table, keyed on the
standard (pre-substitution) pass ID, applied to the substituted
(`TargetID`) value. -/
def overridePass (flags : Flags) (StandardID TargetID : AnalysisID) :
    Except String AnalysisID :=
  if StandardID = PostRASchedulerID then
    Except.ok (applyDisable TargetID flags.DisablePostRA)
  else if StandardID = BranchFolderPassID then
    Except.ok (applyDisable TargetID flags.DisableBranchFold)
  else if StandardID = TailDuplicateID then
    Except.ok (applyDisable TargetID flags.DisableTailDuplicate)
  else if StandardID = EarlyTailDuplicateID then
    Except.ok (applyDisable TargetID flags.DisableEarlyTailDup)
  else if StandardID = MachineBlockPlacementID then
    Except.ok (applyDisable TargetID flags.DisableCodePlace)
  else if StandardID = CodePlacementOptID then
    Except.ok (applyDisable TargetID flags.DisableCodePlace)
  else if StandardID = StackSlotColoringID then
    Except.ok (applyDisable TargetID flags.DisableSSC)
  else if StandardID = DeadMachineInstructionElimID then
    Except.ok (applyDisable TargetID flags.DisableMachineDCE)
  else if StandardID = EarlyIfConverterID then
    Except.ok (applyDisable TargetID (!flags.EnableEarlyIfConversion))
  else if StandardID = MachineLICMID then
    Except.ok (applyDisable TargetID flags.DisableMachineLICM)
  else if StandardID = MachineCSEID then
    Except.ok (applyDisable TargetID flags.DisableMachineCSE)
  else if StandardID = MachineSchedulerID then
    applyOverride TargetID flags.EnableMachineSched StandardID
  else if StandardID = PostRAMachineLICMID then
    Except.ok (applyDisable TargetID flags.DisablePostRAMachineLICM)
  else if StandardID = MachineSinkingID then
    Except.ok (applyDisable TargetID flags.DisableMachineSink)
  else if StandardID = MachineCopyPropagationID then
    Except.ok (applyDisable TargetID flags.DisableCopyProp)
  else Except.ok TargetID

/-- `PassConfigImpl`: the per-pipeline substitution table (`TargetPasses`,
a map from standard ID to replacement ID; modelled as an association list
where `substitutePass` prepends, so the most recent entry wins, matching
`DenseMap` overwrite) and the insertion list (`InsertedPasses`). -/
structure PassConfigImpl where
  TargetPasses : List (AnalysisID × AnalysisID)
  InsertedPasses : List (AnalysisID × AnalysisID)
  deriving DecidableEq

/-- `TargetPassConfig::substitutePass`: record `StandardID ↦ TargetID`. -/
def substitutePass (impl : PassConfigImpl) (StandardID TargetID : AnalysisID) :
    PassConfigImpl :=
  { impl with TargetPasses := (StandardID, TargetID) :: impl.TargetPasses }

/-- `TargetPassConfig::disablePass`: substitute a pass ID with zero. -/
def disablePass (impl : PassConfigImpl) (StandardID : AnalysisID) :
    PassConfigImpl :=
  substitutePass impl StandardID 0

/-- `TargetPassConfig::getPassSubstitution`: look up the substitution
table, returning the input ID unchanged when no entry exists. -/
def getPassSubstitution (impl : PassConfigImpl) (ID : AnalysisID) :
    AnalysisID :=
  match impl.TargetPasses.lookup ID with
  | none => ID
  | some t => t

/-- `TargetPassConfig::insertPass`: record that `InsertedPassID` is to be
scheduled after each occurrence of `TargetPassID`; self-insertion is a
contract violation (`assert`). -/
def insertPass (impl : PassConfigImpl)
    (TargetPassID InsertedPassID : AnalysisID) :
    Except String PassConfigImpl :=
  if TargetPassID = InsertedPassID then
    Except.error "Insert a pass after itself!"
  else
    Except.ok { impl with
      InsertedPasses := impl.InsertedPasses ++ [(TargetPassID, InsertedPassID)] }

/-- The substitution/insertion state set up by the `TargetPassConfig`
constructor: pseudo pass IDs substituted for real ones, early
if-conversion disabled, and the (experimental) machine scheduler
substituted with zero. -/
def defaultImpl : PassConfigImpl :=
  substitutePass
    (disablePass
      (substitutePass
        (substitutePass { TargetPasses := [], InsertedPasses := [] }
          EarlyTailDuplicateID TailDuplicateID)
        PostRAMachineLICMID MachineLICMID)
      EarlyIfConverterID)
    MachineSchedulerID 0

/-- The mutable scheduling state of a `TargetPassConfig` together with its
output: `PM` is the ordered list of pass IDs physically added to the pass
manager, and `StartAfter`/`StopAfter`/`Started`/`Stopped` are the pipeline
gate members. -/
structure GateState where
  PM : List AnalysisID
  StartAfter : AnalysisID
  StopAfter : AnalysisID
  Started : Bool
  Stopped : Bool
  deriving DecidableEq

/-- Modelled from the spec: the constructor in the source initializes
`StartAfter = 0, StopAfter = 0, Started = true, Stopped = false`; the
setter that installs a non-null `StartAfter`/`StopAfter` boundary lives in
a header that is not part of the source excerpt, and per the spec
"`Started` initial = true unless a StartAfter boundary is configured
(then `Started = false` until that boundary is passed)". -/
def initGateState (startAfter stopAfter : AnalysisID) : GateState :=
  { PM := []
    StartAfter := startAfter
    StopAfter := stopAfter
    Started := startAfter == 0
    Stopped := false }

/-- `TargetPassConfig::addPass(Pass *P)`: the pipeline gate.  Append the
pass if `Started && !Stopped`, then update `Stopped`/`Started` against the
`StopAfter`/`StartAfter` boundaries, and fail fatally if the resulting
state is `Stopped && !Started`. -/
def addPassP (s : GateState) (PassID : AnalysisID) : Except String GateState :=
  let s1 := if s.Started && !s.Stopped then { s with PM := s.PM ++ [PassID] } else s
  let s2 := if s1.StopAfter = PassID then { s1 with Stopped := true } else s1
  let s3 := if s2.StartAfter = PassID then { s2 with Started := true } else s2
  if s3.Stopped && !s3.Started then
    Except.error "Cannot stop compilation after pass that is not run"
  else
    Except.ok s3

/-- A full pass configuration: flag values, substitution/insertion state,
and the pass registry (`Pass::createPass` succeeds exactly on registered
IDs). -/
structure TPC where
  flags : Flags
  impl : PassConfigImpl
  registered : AnalysisID → Bool

/-- The loop at the end of `TargetPassConfig::addPass(AnalysisID)`: for
every recorded `(PassID, extra)` pair, instantiate `extra` (asserting it
is non-null and registered) and present it to the gate. -/
def processInserted (cfg : TPC) :
    GateState → List (AnalysisID × AnalysisID) → AnalysisID →
    Except String GateState
  | s, [], _ => Except.ok s
  | s, (a, b) :: rest, PassID =>
    if a = PassID then
      if b = 0 then Except.error "Illegal Pass ID!"
      else if cfg.registered b then do
        let s' ← addPassP s b
        processInserted cfg s' rest PassID
      else Except.error "Pass ID not registered"
    else processInserted cfg s rest PassID

/-- `TargetPassConfig::addPass(AnalysisID PassID)`: resolve the final ID
through the substitution table and override rules; a null final ID yields
nothing; otherwise instantiate the pass, present it to the gate, and then
schedule the recorded inserted passes.  Returns the new state and the
final ID. -/
def addPassID (cfg : TPC) (s : GateState) (PassID : AnalysisID) :
    Except String (GateState × AnalysisID) := do
  let TargetID := getPassSubstitution cfg.impl PassID
  let FinalID ← overridePass cfg.flags PassID TargetID
  if FinalID = 0 then
    return (s, FinalID)
  else if cfg.registered FinalID then do
    let s' ← addPassP s FinalID
    let s'' ← processInserted cfg s' cfg.impl.InsertedPasses PassID
    return (s'', FinalID)
  else Except.error "Pass ID not registered"

/-- `TargetPassConfig::printAndVerify`: conditionally add the machine
function printer and machine verifier passes (both via the gate). -/
def printAndVerify (cfg : TPC) (s : GateState) : Except String GateState := do
  let s' ←
    if cfg.flags.shouldPrintMachineCode then
      addPassP s MachineFunctionPrinterPassID
    else pure s
  if cfg.flags.VerifyMachineCode then
    addPassP s' MachineVerifierPassID
  else pure s'

/-- Present a sequence of already-instantiated passes to the gate in
order (iterated `addPass(Pass*)`). -/
def runPasses : GateState → List AnalysisID → Except String GateState
  | s, [] => Except.ok s
  | s, p :: ps => do
    let s' ← addPassP s p
    runPasses s' ps

/-- `TargetPassConfig::getOptimizeRegAlloc`: the register-allocation mode
is optimized iff the tri-state flag says so, defaulting to "optimized iff
the optimization level is not `None`". -/
def getOptimizeRegAlloc (flags : Flags) (optLevel : CodeGenOptLevel) : Bool :=
  match flags.OptimizeRegAlloc with
  | BoolOrDefault.BOU_UNSET => !(optLevel == CodeGenOptLevel.None)
  | BoolOrDefault.BOU_TRUE => true
  | BoolOrDefault.BOU_FALSE => false

/-- `TargetPassConfig::addFastRegAlloc`: the minimum register-allocation
path — PHI elimination, two-address lowering, then the selected allocator
pass (`RegAllocPassID` stands for the pass object handed in). -/
def addFastRegAlloc (cfg : TPC) (s : GateState) (RegAllocPassID : AnalysisID) :
    Except String GateState := do
  let (s1, _) ← addPassID cfg s PHIEliminationID
  let (s2, _) ← addPassID cfg s1 TwoAddressInstructionPassID
  let s3 ← addPassP s2 RegAllocPassID
  printAndVerify cfg s3

/-- `TargetPassConfig::addOptimizedRegAlloc`: the optimized
register-allocation path.  The `addPreRewrite`/`addFinalizeRegAlloc`
hooks default to doing nothing and returning false (their base-class
bodies are outside the excerpt; the spec describes them as empty
extension points), so their conditional `printAndVerify` calls are
skipped. -/
def addOptimizedRegAlloc (cfg : TPC) (s : GateState)
    (RegAllocPassID : AnalysisID) : Except String GateState := do
  let (s1, _) ← addPassID cfg s ProcessImplicitDefsID
  let (s2, _) ← addPassID cfg s1 LiveVariablesID
  let s3 ←
    if !cfg.flags.EnableStrongPHIElim then do
      let (a, _) ← addPassID cfg s2 MachineLoopInfoID
      let (b, _) ← addPassID cfg a PHIEliminationID
      pure b
    else pure s2
  let s4 ←
    if cfg.flags.EarlyLiveIntervals then do
      let (a, _) ← addPassID cfg s3 LiveIntervalsID
      pure a
    else pure s3
  let (s5, _) ← addPassID cfg s4 TwoAddressInstructionPassID
  let s6 ←
    if cfg.flags.EnableStrongPHIElim then do
      let (a, _) ← addPassID cfg s5 StrongPHIEliminationID
      pure a
    else pure s5
  let (s7, _) ← addPassID cfg s6 RegisterCoalescerID
  let (s8, msID) ← addPassID cfg s7 MachineSchedulerID
  let s9 ← if msID ≠ 0 then printAndVerify cfg s8 else pure s8
  let s10 ← addPassP s9 RegAllocPassID
  let s11 ← printAndVerify cfg s10
  let (s12, _) ← addPassID cfg s11 VirtRegRewriterID
  let s13 ← printAndVerify cfg s12
  let (s14, _) ← addPassID cfg s13 StackSlotColoringID
  let (s15, _) ← addPassID cfg s14 PostRAMachineLICMID
  printAndVerify cfg s15

/-! ## Register allocator selector -/

/-- A register-allocator factory (`RegisterRegAlloc::FunctionPassCtor`,
a function pointer in the source), identified by a token; distinct tokens
are distinct factories. -/
abbrev FunctionPassCtor := Nat

/-- The dummy default factory registered under the name "default": the
sentinel meaning "pick the register allocator based on the -O option",
i.e. defer to the target. -/
def useDefaultRegisterAllocator : FunctionPassCtor := 0

/-- The greedy (higher-quality) register allocator factory. -/
def createGreedyRegisterAllocator : FunctionPassCtor := 1

/-- The fast (minimal linear) register allocator factory. -/
def createFastRegisterAllocator : FunctionPassCtor := 2

/-- `TargetPassConfig::createTargetRegisterAllocator` (base-class body):
greedy when optimized, fast otherwise. -/
def createTargetRegisterAllocator (Optimized : Bool) : FunctionPassCtor :=
  if Optimized then createGreedyRegisterAllocator
  else createFastRegisterAllocator

/-- The process-wide `RegisterRegAlloc::Registry` default slot
(`getDefault`/`setDefault`); `none` models the null function pointer
before any resolution. -/
structure RegAllocRegistry where
  Default : Option FunctionPassCtor
  deriving DecidableEq

/-- `TargetPassConfig::createRegAllocPass`.  `RegAllocOpt` is the value of
the `-regalloc=` command-line option (initialized to the
`useDefaultRegisterAllocator` sentinel); `hook` is the virtual
`createTargetRegisterAllocator` as this call would execute it (a target
may override the base body, so each call site supplies its behavior).
Returns the updated global registry state and the chosen factory. -/
def createRegAllocPass (RegAllocOpt : FunctionPassCtor)
    (hook : Bool → FunctionPassCtor) (st : RegAllocRegistry)
    (Optimized : Bool) : RegAllocRegistry × FunctionPassCtor :=
  let Ctor := st.Default
  let p :=
    match Ctor with
    | none => (RegAllocOpt, { Default := some RegAllocOpt : RegAllocRegistry })
    | some c => (c, st)
  if p.1 ≠ useDefaultRegisterAllocator then (p.2, p.1)
  else (p.2, hook Optimized)

/-! ## Concrete instances used to exercise the model -/

/-- The standard IDs that `overridePass` special-cases (the keys of the
fixed override-rule table). -/
def overrideKeyedIDs : List AnalysisID :=
  [PostRASchedulerID, BranchFolderPassID, TailDuplicateID,
   EarlyTailDuplicateID, MachineBlockPlacementID, CodePlacementOptID,
   StackSlotColoringID, DeadMachineInstructionElimID, EarlyIfConverterID,
   MachineLICMID, MachineCSEID, MachineSchedulerID, PostRAMachineLICMID,
   MachineSinkingID, MachineCopyPropagationID]

/-- A registry in which every pass ID is registered. -/
def allRegistered : AnalysisID → Bool := fun _ => true

/-- A gate with no boundaries configured: every candidate is appended. -/
def openGate : GateState :=
  { PM := [], StartAfter := 0, StopAfter := 0, Started := true, Stopped := false }

/-- The configuration produced by the `TargetPassConfig` constructor with
no command-line flags set and every pass registered. -/
def cfgDefault : TPC :=
  { flags := defaultFlags, impl := defaultImpl, registered := allRegistered }

/-- The default configuration with the machine scheduler force-enabled
(`-enable-misched=true`). -/
def cfgEnableSched : TPC :=
  { flags := { defaultFlags with EnableMachineSched := BoolOrDefault.BOU_TRUE }
    impl := defaultImpl
    registered := allRegistered }

/-- A configuration whose substitution table suppresses pass `101`
(maps it to null) while the insertion list schedules `101` after `100`. -/
def cfgSubNullInsert : TPC :=
  { flags := defaultFlags
    impl := { TargetPasses := [(101, 0)], InsertedPasses := [(100, 101)] }
    registered := allRegistered }

/-- A configuration whose substitution table suppresses pass `100` itself
(maps it to null) while the insertion list schedules `101` after `100`. -/
def cfgSelfNull : TPC :=
  { flags := defaultFlags
    impl := { TargetPasses := [(100, 0)], InsertedPasses := [(100, 101)] }
    registered := allRegistered }

/-- A configuration substituting pass `100` with pass `102` while the
insertion list schedules `101` after the standard identity `100`. -/
def cfgSubAndInsert : TPC :=
  { flags := defaultFlags
    impl := { TargetPasses := [(100, 102)], InsertedPasses := [(100, 101)] }
    registered := allRegistered }

/-- Decidable equality for `Except`, so concrete runs of the model can be
checked by `decide`. -/
instance exceptDecEq {ε α : Type} [DecidableEq ε] [DecidableEq α] :
    DecidableEq (Except ε α) := fun a b =>
  match a, b with
  | Except.ok x, Except.ok y =>
    if h : x = y then isTrue (by rw [h])
    else isFalse (by intro hc; injection hc; exact h ‹_›)
  | Except.error x, Except.error y =>
    if h : x = y then isTrue (by rw [h])
    else isFalse (by intro hc; injection hc; exact h ‹_›)
  | Except.ok _, Except.error _ => isFalse (by intro hc; exact Except.noConfusion hc)
  | Except.error _, Except.ok _ => isFalse (by intro hc; exact Except.noConfusion hc)

/-! ## Theorems -/

/-- Helper: a standard ID outside the fixed override-rule table is passed
through `overridePass` unchanged (the substituted value wins). -/
theorem overridePass_not_keyed (flags : Flags) (X T : AnalysisID)
    (h : X ∉ overrideKeyedIDs) :
    overridePass flags X T = Except.ok T := by
  simp only [overrideKeyedIDs, List.mem_cons, List.not_mem_nil, or_false,
    not_or] at h
  obtain ⟨h1, h2, h3, h4, h5, h6, h7, h8, h9, h10, h11, h12, h13, h14, h15⟩ := h
  simp [overridePass, h1, h2, h3, h4, h5, h6, h7, h8, h9, h10, h11, h12, h13,
    h14, h15]

/-- Helper: binding a successful `Except` computation applies the
continuation. -/
theorem exceptBind_ok {ε α β : Type} (a : α) (f : α → Except ε β) :
    (Except.ok a >>= f) = f a := rfl

/-- Helper: binding a failed `Except` computation propagates the error. -/
theorem exceptBind_error {ε α β : Type} (err : ε) (f : α → Except ε β) :
    ((Except.error err : Except ε α) >>= f) = Except.error err := rfl

/-- C1: Gate windowing — with StartAfter = A and StopAfter = B, presenting
the candidate sequence [A, X, B, Y] (non-null, pairwise distinct resolved
identities) to the gate produces exactly the output pipeline [X, B]: A is
excluded because the StartAfter check sets Started only after the append
decision, and Y is excluded because Stopped (set when B was appended) took
effect on the next candidate. -/
theorem gate_windowing (A X B Y : AnalysisID)
    (hA : A ≠ 0) (hX : X ≠ 0) (hB : B ≠ 0) (hY : Y ≠ 0)
    (hAX : A ≠ X) (hAB : A ≠ B) (hAY : A ≠ Y)
    (hXB : X ≠ B) (hXY : X ≠ Y) (hBY : B ≠ Y) :
    runPasses (initGateState A B) [A, X, B, Y] =
      Except.ok ⟨[X, B], A, B, true, true⟩ := by
  have e0 : initGateState A B = ⟨[], A, B, false, false⟩ := by
    simp [initGateState, hA]
  have e1 : addPassP ⟨[], A, B, false, false⟩ A =
      Except.ok ⟨[], A, B, true, false⟩ := by
    simp [addPassP, Ne.symm hAB]
  have e2 : addPassP ⟨[], A, B, true, false⟩ X =
      Except.ok ⟨[X], A, B, true, false⟩ := by
    simp [addPassP, Ne.symm hXB, Ne.symm hAX]
  have e3 : addPassP ⟨[X], A, B, true, false⟩ B =
      Except.ok ⟨[X, B], A, B, true, true⟩ := by
    simp [addPassP, hAB]
  have e4 : addPassP ⟨[X, B], A, B, true, true⟩ Y =
      Except.ok ⟨[X, B], A, B, true, true⟩ := by
    simp [addPassP, Ne.symm hBY, Ne.symm hAY]
  simp [runPasses, e0, e1, e2, e3, e4, exceptBind_ok]

/-- Witness for `gate_windowing` at A = 1, X = 2, B = 3, Y = 4. -/
theorem gate_windowing_witness :
    runPasses (initGateState 1 3) [1, 2, 3, 4] =
      Except.ok ⟨[2, 3], 1, 3, true, true⟩ :=
  gate_windowing 1 2 3 4 (by decide) (by decide) (by decide) (by decide)
    (by decide) (by decide) (by decide) (by decide) (by decide) (by decide)

/-- Helper: `pure` in the `Except` monad is `Except.ok`. -/
theorem exceptPure {ε α : Type} (a : α) : (pure a : Except ε α) = Except.ok a :=
  rfl

/-- C4: Invalid window — whenever processing a candidate pass boundary
leaves the gate Stopped while still not Started (the pass matches the
StopAfter boundary, or the gate was already stopped, while Started stays
false), `addPass` fails with the "stop before start" fatal error; in
particular, with StartAfter = B and StopAfter = A, construction of any
sequence beginning with candidate A fails at that first pass boundary. -/
theorem stop_before_start_fatal (s : GateState) (p A B : AnalysisID)
    (rest : List AnalysisID)
    (h1 : s.Stopped = true ∨ s.StopAfter = p)
    (h2 : s.Started = false) (h3 : s.StartAfter ≠ p)
    (hB : B ≠ 0) (hAB : A ≠ B) :
    addPassP s p =
      Except.error "Cannot stop compilation after pass that is not run"
    ∧ runPasses (initGateState B A) (A :: rest) =
      Except.error "Cannot stop compilation after pass that is not run" := by
  constructor
  · by_cases hsp : s.StopAfter = p <;>
      rcases h1 with h1 | h1 <;>
      simp_all [addPassP, h2, h3]
  · have e0 : initGateState B A = ⟨[], B, A, false, false⟩ := by
      simp [initGateState, hB]
    have e1 : addPassP ⟨[], B, A, false, false⟩ A =
        Except.error "Cannot stop compilation after pass that is not run" := by
      simp [addPassP, Ne.symm hAB]
    simp [runPasses, e0, e1, exceptBind_error]

/-- Witness for `stop_before_start_fatal`: StartAfter = 3, StopAfter = 1,
candidate sequence [1, 2, 3, 4]. -/
theorem stop_before_start_fatal_witness :
    addPassP ⟨[], 3, 1, false, false⟩ 1 =
      Except.error "Cannot stop compilation after pass that is not run"
    ∧ runPasses (initGateState 3 1) (1 :: [2, 3, 4]) =
      Except.error "Cannot stop compilation after pass that is not run" :=
  stop_before_start_fatal ⟨[], 3, 1, false, false⟩ 1 1 3 [2, 3, 4]
    (Or.inr (by decide)) (by decide) (by decide) (by decide) (by decide)

/-- C5: Substitution precedence — scheduling a standard identity whose
substitution-table entry is null and which has no applicable override rule
leaves the state (output pipeline included) unchanged and does not trigger
insertion-list entries: `addPass(AnalysisID)` returns before the
instantiate/gate/insert steps. -/
theorem substitution_null_suppresses (cfg : TPC) (s : GateState)
    (X : AnalysisID)
    (hsub : getPassSubstitution cfg.impl X = 0)
    (hk : X ∉ overrideKeyedIDs) :
    addPassID cfg s X = Except.ok (s, 0) := by
  simp [addPassID, hsub, overridePass_not_keyed cfg.flags X 0 hk,
    exceptBind_ok, exceptPure]

/-- Witness for `substitution_null_suppresses`: pass 100 is substituted to
null and has an insertion entry (100, 101) that must not fire. -/
theorem substitution_null_suppresses_witness :
    addPassID cfgSelfNull openGate 100 = Except.ok (openGate, 0) :=
  substitution_null_suppresses cfgSelfNull openGate 100 (by decide)
    (by decide)

/-- C6: Override precedence — for every standard identity bound to a
disable-if-true override rule, when the bound flag is true the resolved
final identity is null regardless of the substituted value `T`, and when
it is false the substituted value passes through unchanged.  (For the
early if-converter the bound condition is the negation of its enable
flag.) -/
theorem disable_if_true_override (flags : Flags) (T : AnalysisID) :
    overridePass flags PostRASchedulerID T =
      Except.ok (if flags.DisablePostRA then 0 else T)
    ∧ overridePass flags BranchFolderPassID T =
      Except.ok (if flags.DisableBranchFold then 0 else T)
    ∧ overridePass flags TailDuplicateID T =
      Except.ok (if flags.DisableTailDuplicate then 0 else T)
    ∧ overridePass flags EarlyTailDuplicateID T =
      Except.ok (if flags.DisableEarlyTailDup then 0 else T)
    ∧ overridePass flags MachineBlockPlacementID T =
      Except.ok (if flags.DisableCodePlace then 0 else T)
    ∧ overridePass flags CodePlacementOptID T =
      Except.ok (if flags.DisableCodePlace then 0 else T)
    ∧ overridePass flags StackSlotColoringID T =
      Except.ok (if flags.DisableSSC then 0 else T)
    ∧ overridePass flags DeadMachineInstructionElimID T =
      Except.ok (if flags.DisableMachineDCE then 0 else T)
    ∧ overridePass flags EarlyIfConverterID T =
      Except.ok (if flags.EnableEarlyIfConversion then T else 0)
    ∧ overridePass flags MachineLICMID T =
      Except.ok (if flags.DisableMachineLICM then 0 else T)
    ∧ overridePass flags MachineCSEID T =
      Except.ok (if flags.DisableMachineCSE then 0 else T)
    ∧ overridePass flags PostRAMachineLICMID T =
      Except.ok (if flags.DisablePostRAMachineLICM then 0 else T)
    ∧ overridePass flags MachineSinkingID T =
      Except.ok (if flags.DisableMachineSink then 0 else T)
    ∧ overridePass flags MachineCopyPropagationID T =
      Except.ok (if flags.DisableCopyProp then 0 else T) := by
  have hE : overridePass flags EarlyIfConverterID T =
      Except.ok (if flags.EnableEarlyIfConversion then T else 0) := by
    cases h : flags.EnableEarlyIfConversion <;>
      simp [overridePass, applyDisable, h, PostRASchedulerID,
        BranchFolderPassID, TailDuplicateID, EarlyTailDuplicateID,
        MachineBlockPlacementID, CodePlacementOptID, StackSlotColoringID,
        DeadMachineInstructionElimID, EarlyIfConverterID]
  refine ⟨?_, ?_, ?_, ?_, ?_, ?_, ?_, ?_, hE, ?_, ?_, ?_, ?_, ?_⟩ <;>
    simp [overridePass, applyDisable, PostRASchedulerID, BranchFolderPassID,
      TailDuplicateID, EarlyTailDuplicateID, MachineBlockPlacementID,
      CodePlacementOptID, StackSlotColoringID, DeadMachineInstructionElimID,
      EarlyIfConverterID, MachineLICMID, MachineCSEID, MachineSchedulerID,
      PostRAMachineLICMID, MachineSinkingID, MachineCopyPropagationID]

/-- C7: Tri-state enable resolution — `applyOverride` passes the
substituted identity through when the flag is unset, yields null when
force-false, and when force-true uses the substituted identity if
non-null, else the fallback standard identity if non-null, else fails
fatally with "Target cannot enable pass"; `overridePass` applies exactly
this rule for the machine scheduler, the identity bound to a tri-state
rule. -/
theorem tri_state_enable_resolution (flags : Flags)
    (TargetID StandardID : AnalysisID) :
    applyOverride TargetID BoolOrDefault.BOU_UNSET StandardID =
      Except.ok TargetID
    ∧ applyOverride TargetID BoolOrDefault.BOU_FALSE StandardID =
      Except.ok 0
    ∧ applyOverride TargetID BoolOrDefault.BOU_TRUE StandardID =
      (if TargetID ≠ 0 then Except.ok TargetID
       else if StandardID = 0 then Except.error "Target cannot enable pass"
       else Except.ok StandardID)
    ∧ overridePass flags MachineSchedulerID TargetID =
      applyOverride TargetID flags.EnableMachineSched MachineSchedulerID := by
  refine ⟨rfl, rfl, rfl, ?_⟩
  simp [overridePass, MachineSchedulerID, PostRASchedulerID,
    BranchFolderPassID, TailDuplicateID, EarlyTailDuplicateID,
    MachineBlockPlacementID, CodePlacementOptID, StackSlotColoringID,
    DeadMachineInstructionElimID, EarlyIfConverterID, MachineLICMID,
    MachineCSEID]

/-- C8: Insertion fidelity — after recording the insertion pair (X, Z),
scheduling standard identity X, even when the substitution table replaces
it with a different concrete identity `Xsub`, appends Z immediately after
`Xsub` in the output pipeline, because insertion anchors are matched
against the pre-substitution standard identity. -/
theorem insertion_fidelity (cfg : TPC) (s : GateState) (X Xsub Z : AnalysisID)
    (hsub : getPassSubstitution cfg.impl X = Xsub)
    (hk : X ∉ overrideKeyedIDs)
    (hXsub : Xsub ≠ 0) (hrX : cfg.registered Xsub = true)
    (hZ : Z ≠ 0) (hrZ : cfg.registered Z = true)
    (hins : cfg.impl.InsertedPasses = [(X, Z)])
    (hstart : s.Started = true) (hstop : s.Stopped = false)
    (h1 : s.StopAfter ≠ Xsub) (h2 : s.StopAfter ≠ Z)
    (h3 : s.StartAfter ≠ Xsub) (h4 : s.StartAfter ≠ Z) :
    addPassID cfg s X =
      Except.ok ({ s with PM := s.PM ++ [Xsub, Z] }, Xsub) := by
  have e1 : addPassP s Xsub =
      Except.ok { s with PM := s.PM ++ [Xsub] } := by
    simp [addPassP, hstart, hstop, h1, h3]
  have e2 : addPassP { s with PM := s.PM ++ [Xsub] } Z =
      Except.ok { s with PM := s.PM ++ [Xsub, Z] } := by
    simp [addPassP, hstart, hstop, h2, h4]
  simp [addPassID, hsub, overridePass_not_keyed cfg.flags X Xsub hk,
    exceptBind_ok, hXsub, hrX, processInserted, hins, hZ, hrZ, e1, e2,
    exceptPure]

/-- Witness for `insertion_fidelity`: pass 100 substituted to 102, with
insertion pair (100, 101); scheduling 100 yields [102, 101]. -/
theorem insertion_fidelity_witness :
    addPassID cfgSubAndInsert openGate 100 =
      Except.ok ({ openGate with PM := openGate.PM ++ [102, 101] }, 102) :=
  insertion_fidelity cfgSubAndInsert openGate 100 102 101 (by decide)
    (by decide) (by decide) rfl (by decide) rfl rfl rfl rfl (by decide)
    (by decide) (by decide) (by decide)

/-- C3 counterexample: the substitution table maps pass 101 to null, and
(100, 101) is on the insertion list; the claim predicts that scheduling
100 suppresses the inserted pass 101 (leaving output [100]), but the code
appends the inserted pass from its raw recorded identity without any
substitution/override resolution, producing [100, 101]. -/
theorem inserted_pass_bypass_cex :
    getPassSubstitution cfgSubNullInsert.impl 101 = 0
    ∧ addPassID cfgSubNullInsert openGate 100 =
      Except.ok (⟨[100, 101], 0, 0, true, false⟩, 100)
    ∧ ¬ addPassID cfgSubNullInsert openGate 100 =
      Except.ok (⟨[100], 0, 0, true, false⟩, 100) := by
  decide

/-- C3 amended: an extra pass scheduled from the insertion list after its
anchor is instantiated directly from its recorded identity and presented
only to the pipeline gate — it is NOT routed through substitution-table or
override-rule resolution, so it is appended (here, immediately after the
anchor's substituted identity `Xsub`) even when its own substitution entry
is null. -/
theorem inserted_pass_bypasses_resolution (cfg : TPC) (s : GateState)
    (X Xsub Z : AnalysisID)
    (hsubZ : getPassSubstitution cfg.impl Z = 0)
    (hsub : getPassSubstitution cfg.impl X = Xsub)
    (hk : X ∉ overrideKeyedIDs)
    (hXsub : Xsub ≠ 0) (hrX : cfg.registered Xsub = true)
    (hZ : Z ≠ 0) (hrZ : cfg.registered Z = true)
    (hins : cfg.impl.InsertedPasses = [(X, Z)])
    (hstart : s.Started = true) (hstop : s.Stopped = false)
    (h1 : s.StopAfter ≠ Xsub) (h2 : s.StopAfter ≠ Z)
    (h3 : s.StartAfter ≠ Xsub) (h4 : s.StartAfter ≠ Z) :
    addPassID cfg s X =
      Except.ok ({ s with PM := s.PM ++ [Xsub, Z] }, Xsub) := by
  have e1 : addPassP s Xsub =
      Except.ok { s with PM := s.PM ++ [Xsub] } := by
    simp [addPassP, hstart, hstop, h1, h3]
  have e2 : addPassP { s with PM := s.PM ++ [Xsub] } Z =
      Except.ok { s with PM := s.PM ++ [Xsub, Z] } := by
    simp [addPassP, hstart, hstop, h2, h4]
  simp [addPassID, hsub, overridePass_not_keyed cfg.flags X Xsub hk,
    exceptBind_ok, hXsub, hrX, processInserted, hins, hZ, hrZ, e1, e2,
    exceptPure]

/-- Witness for `inserted_pass_bypasses_resolution`: pass 101 substituted
to null, insertion pair (100, 101); scheduling 100 still yields
[100, 101]. -/
theorem inserted_pass_bypasses_resolution_witness :
    addPassID cfgSubNullInsert openGate 100 =
      Except.ok ({ openGate with PM := openGate.PM ++ [100, 101] }, 100) :=
  inserted_pass_bypasses_resolution cfgSubNullInsert openGate 100 100 101
    (by decide) (by decide) (by decide) (by decide) rfl (by decide) rfl rfl
    rfl rfl (by decide) (by decide) (by decide) (by decide)

/-- C10: whenever a scheduled pass's resolved identity `Xsub` is non-null,
its insertion-list entries fire even though the pipeline gate silently
dropped the pass itself (here the window has not started yet): the
inserted pass `Z` is still instantiated and presented to the gate —
observable because `Z` matches the StartAfter boundary and flips `Started`
— while the physical appends of both the anchor and the inserted pass are
skipped, leaving the output pipeline `pm` unchanged. -/
theorem inserted_fire_when_gate_dropped (cfg : TPC) (pm : List AnalysisID)
    (X Xsub Z : AnalysisID)
    (hsub : getPassSubstitution cfg.impl X = Xsub)
    (hk : X ∉ overrideKeyedIDs)
    (hXsub : Xsub ≠ 0) (hrX : cfg.registered Xsub = true)
    (hZ : Z ≠ 0) (hrZ : cfg.registered Z = true)
    (hins : cfg.impl.InsertedPasses = [(X, Z)])
    (hZX : Z ≠ Xsub) :
    addPassID cfg ⟨pm, Z, 0, false, false⟩ X =
      Except.ok (⟨pm, Z, 0, true, false⟩, Xsub) := by
  have e1 : addPassP ⟨pm, Z, 0, false, false⟩ Xsub =
      Except.ok ⟨pm, Z, 0, false, false⟩ := by
    simp [addPassP, Ne.symm hXsub, hZX]
  have e2 : addPassP ⟨pm, Z, 0, false, false⟩ Z =
      Except.ok ⟨pm, Z, 0, true, false⟩ := by
    simp [addPassP, Ne.symm hZ]
  simp [addPassID, hsub, overridePass_not_keyed cfg.flags X Xsub hk,
    exceptBind_ok, hXsub, hrX, processInserted, hins, hZ, hrZ, e1, e2,
    exceptPure]

/-- Witness for `inserted_fire_when_gate_dropped`: anchor 100 (resolved to
itself) is dropped because the window has not started; inserted pass 101
is still presented to the gate and, being the StartAfter boundary, flips
`Started`. -/
theorem inserted_fire_when_gate_dropped_witness :
    addPassID cfgSubNullInsert ⟨[], 101, 0, false, false⟩ 100 =
      Except.ok (⟨[], 101, 0, true, false⟩, 100) :=
  inserted_fire_when_gate_dropped cfgSubNullInsert [] 100 100 101
    (by decide) (by decide) (by decide) rfl (by decide) rfl rfl (by decide)

/-- C9 counterexample: with every flag at its default (no explicit
suppression flags set), the optimized register-allocation path contains NO
pre-allocation machine-scheduling pass: the constructor substituted the
machine scheduler with null, so the claim that the optimized path contains
pre-allocation scheduling absent explicit suppression flags fails (`50`
stands for the selected allocator pass). -/
theorem optimized_path_no_presched_cex :
    addOptimizedRegAlloc cfgDefault openGate 50 =
      Except.ok ⟨[ProcessImplicitDefsID, LiveVariablesID, MachineLoopInfoID,
        PHIEliminationID, TwoAddressInstructionPassID, RegisterCoalescerID,
        50, VirtRegRewriterID, StackSlotColoringID, MachineLICMID],
        0, 0, true, false⟩
    ∧ MachineSchedulerID ∉ [ProcessImplicitDefsID, LiveVariablesID,
        MachineLoopInfoID, PHIEliminationID, TwoAddressInstructionPassID,
        RegisterCoalescerID, 50, VirtRegRewriterID, StackSlotColoringID,
        MachineLICMID] := by
  decide

/-- C9 amended: the fast path (the default when `getOptimizeRegAlloc`
resolves the mode at optimization level None) is exactly PHI elimination,
two-address lowering, then the selected allocator, with no register
coalescing and no pre-allocation scheduling; the optimized path (default
at any level above None) contains register coalescing, but pre-allocation
machine scheduling is suppressed by default (the constructor substitutes
it to null) and appears only when explicitly force-enabled
(`-enable-misched=true`). -/
theorem fast_vs_optimized_path :
    getOptimizeRegAlloc defaultFlags CodeGenOptLevel.None = false
    ∧ getOptimizeRegAlloc defaultFlags CodeGenOptLevel.Less = true
    ∧ getOptimizeRegAlloc defaultFlags CodeGenOptLevel.Default = true
    ∧ getOptimizeRegAlloc defaultFlags CodeGenOptLevel.Aggressive = true
    ∧ addFastRegAlloc cfgDefault openGate 50 =
      Except.ok ⟨[PHIEliminationID, TwoAddressInstructionPassID, 50],
        0, 0, true, false⟩
    ∧ RegisterCoalescerID ∉
        [PHIEliminationID, TwoAddressInstructionPassID, (50 : AnalysisID)]
    ∧ MachineSchedulerID ∉
        [PHIEliminationID, TwoAddressInstructionPassID, (50 : AnalysisID)]
    ∧ addOptimizedRegAlloc cfgDefault openGate 50 =
      Except.ok ⟨[ProcessImplicitDefsID, LiveVariablesID, MachineLoopInfoID,
        PHIEliminationID, TwoAddressInstructionPassID, RegisterCoalescerID,
        50, VirtRegRewriterID, StackSlotColoringID, MachineLICMID],
        0, 0, true, false⟩
    ∧ RegisterCoalescerID ∈ [ProcessImplicitDefsID, LiveVariablesID,
        MachineLoopInfoID, PHIEliminationID, TwoAddressInstructionPassID,
        RegisterCoalescerID, 50, VirtRegRewriterID, StackSlotColoringID,
        MachineLICMID]
    ∧ addOptimizedRegAlloc cfgEnableSched openGate 50 =
      Except.ok ⟨[ProcessImplicitDefsID, LiveVariablesID, MachineLoopInfoID,
        PHIEliminationID, TwoAddressInstructionPassID, RegisterCoalescerID,
        MachineSchedulerID, 50, VirtRegRewriterID, StackSlotColoringID,
        MachineLICMID], 0, 0, true, false⟩
    ∧ MachineSchedulerID ∈ [ProcessImplicitDefsID, LiveVariablesID,
        MachineLoopInfoID, PHIEliminationID, TwoAddressInstructionPassID,
        RegisterCoalescerID, MachineSchedulerID, 50, VirtRegRewriterID,
        StackSlotColoringID, MachineLICMID] := by
  decide

/-- C2 counterexample: two pipelines built in the same process with no
explicit allocator override (`-regalloc=` left at the
`useDefaultRegisterAllocator` sentinel) and the same requested mode, where
the target's default-selection hook answers greedy on the first call and
fast on the second, receive DIFFERENT allocator kinds: the memoized global
default is the deferral sentinel itself, so the target hook is consulted
anew on every call. -/
theorem regalloc_memoization_cex :
    (createRegAllocPass useDefaultRegisterAllocator
        (fun _ => createGreedyRegisterAllocator) ⟨none⟩ true).2 =
      createGreedyRegisterAllocator
    ∧ (createRegAllocPass useDefaultRegisterAllocator
        (fun _ => createFastRegisterAllocator)
        (createRegAllocPass useDefaultRegisterAllocator
          (fun _ => createGreedyRegisterAllocator) ⟨none⟩ true).1 true).2 =
      createFastRegisterAllocator
    ∧ createGreedyRegisterAllocator ≠ createFastRegisterAllocator := by
  decide

/-- C2 amended: the first resolution memoizes only the externally chosen
factory `R` (the `-regalloc=` value) in the process-wide default slot.
When `R` is a non-sentinel explicit choice, both pipelines get exactly
`R`, whatever the target hook would say; when `R` is the deferral
sentinel, each call returns its own target-hook answer (`h1 o1`, then
`h2 o2`), so the two pipelines agree only if the hook answers
identically across calls. -/
theorem regalloc_default_resolution (R : FunctionPassCtor)
    (h1 h2 : Bool → FunctionPassCtor) (o1 o2 : Bool) :
    (createRegAllocPass R h1 ⟨none⟩ o1).1 = ⟨some R⟩
    ∧ ((createRegAllocPass R h1 ⟨none⟩ o1).2,
       (createRegAllocPass R h2 (createRegAllocPass R h1 ⟨none⟩ o1).1 o2).2) =
      (if R = useDefaultRegisterAllocator then (h1 o1, h2 o2) else (R, R)) := by
  by_cases hR : R = 0 <;>
    simp [createRegAllocPass, useDefaultRegisterAllocator, hR]
